import Mathlib

/-!
# Verification of the ctrl_room_monitor acquisition core (app.c)

Shallow embedding of the sensor-acquisition program in
sources/ctrl_room_monitor/application/app.c.

Modelling conventions:
* C float arithmetic is embedded in the rationals; every numeric literal of
  the source (0.0625, 0.6, 3.5, 5.8, 1.253, 25.931, 7.542, 1023.0, 5.0) is an
  exact decimal, carried exactly.
* int16_t values are integers wrapped into [-32768, 32767] by toInt16; uint8_t
  values are naturals reduced mod 256 at the point the C code casts.
* External collaborators (the mraa bus driver, pin I/O and the SQLite store)
  are oracles: their results are inputs of the embedded functions, and each
  call to store_data_to_db is recorded in a trace.
-/

namespace CtrlRoomMonitor

/-- SUCCESS return code of app.c. -/
abbrev SUCCESS : Nat := 1

/-- FAIL return code of app.c. -/
abbrev FAIL : Nat := 0

/-- NUM_OF_SENSORS: number of configured DS18B20 probes (2 in app.c). -/
abbrev NUM_OF_SENSORS : Nat := 2

/-- Wrap an integer into the int16_t range, the conversion C performs when an
int value is stored into an int16_t object (two's-complement wrap). -/
def toInt16 (z : ℤ) : ℤ := (z + 32768) % 65536 - 32768

/-- The 16-bit accumulation of app.c line 475:
temp_adc_val = ((int16_t)scratchpad[1] << 8) | (int16_t)scratchpad[0],
for bytes b0 b1 already reduced mod 256. -/
def ds18b20_adc_accum (b0 b1 : ℕ) : ℤ := toInt16 ((b1 : ℤ) * 256 + (b0 : ℤ))

/-- The negative branch of app.c lines 484-485 applied to temp_adc_val = z:
first temp_adc_val = ((int16_t)(~temp_adc_val)) + 1 (with ~z = -z - 1 on a
two's-complement int and an int16_t store), then temp_adc_val = -temp_adc_val
(again stored into int16_t). -/
def ds18b20_neg_branch (z : ℤ) : ℤ := toInt16 (-(toInt16 (toInt16 (-z - 1) + 1)))

/-- Embedding of ds18b20_read_temp_float (app.c lines 441-491).

The bus reads are an oracle: sp is the list of the 9 bytes the 1-wire reads
delivered (cast to uint8_t, hence the mod 256), and crc8 is the bus driver's
mraa_uart_ow_crc8, applied to the first DS18B20_ADDR_LEN = 8 bytes of the
scratchpad (its uint8_t result is reduced mod 256).  p_temp is the value the
caller's float holds before the call; the function returns the pair
(status code, value of that float after the call): on CRC mismatch it returns
FAIL and leaves the float untouched, otherwise it decodes and scales. -/
def ds18b20_read_temp_float (crc8 : List ℕ → ℕ) (sp : List ℕ) (p_temp : ℚ) :
    ℕ × ℚ :=
  let spb := sp.map (fun b => b % 256)
  let crc := crc8 (spb.take 8) % 256
  if crc ≠ spb.getD 8 0 then (FAIL, p_temp)
  else
    let b0 := spb.getD 0 0
    let b1 := spb.getD 1 0
    let temp0 := ds18b20_adc_accum b0 b1
    let raw := if b1 &&& 0x80 ≠ 0 then ds18b20_neg_branch temp0 else temp0
    (SUCCESS, (raw : ℚ) * 0.0625)

/-- The CRC precondition of a scratchpad oracle: the driver's CRC-8 of the
first 8 delivered bytes equals the 9th delivered byte (app.c lines 466-467). -/
def crc_matches (crc8 : List ℕ → ℕ) (sp : List ℕ) : Prop :=
  crc8 ((sp.map (fun b => b % 256)).take 8) % 256 =
    (sp.map (fun b => b % 256)).getD 8 0

instance (crc8 : List ℕ → ℕ) (sp : List ℕ) : Decidable (crc_matches crc8 sp) := by
  unfold crc_matches; infer_instance

lemma toInt16_lb (z : ℤ) : -32768 ≤ toInt16 z := by
  unfold toInt16; omega

lemma toInt16_ub (z : ℤ) : toInt16 z ≤ 32767 := by
  unfold toInt16; omega

/-- The double negation of app.c lines 484-485 is the identity on int16
values: inverting, adding one and storing, then negating and storing again
returns the original two's-complement value. -/
lemma ds18b20_neg_branch_id (z : ℤ) (h1 : -32768 ≤ z) (h2 : z ≤ 32767) :
    ds18b20_neg_branch z = z := by
  unfold ds18b20_neg_branch toInt16
  omega

lemma ds18b20_adc_accum_lb (b0 b1 : ℕ) : -32768 ≤ ds18b20_adc_accum b0 b1 :=
  toInt16_lb _

lemma ds18b20_adc_accum_ub (b0 b1 : ℕ) : ds18b20_adc_accum b0 b1 ≤ 32767 :=
  toInt16_ub _

lemma getD_map_mod (sp : List ℕ) (i : ℕ) :
    (sp.map (fun b => b % 256)).getD i 0 = sp.getD i 0 % 256 := by
  induction sp generalizing i with
  | nil => simp [List.getD]
  | cons a l ih =>
    cases i with
    | zero => simp [List.getD]
    | succ j => simpa [List.getD] using ih j

/-- On a CRC-matching frame, ds18b20_read_temp_float returns SUCCESS and the
int16 interpretation of the little-endian raw field times 0.0625. -/
lemma ds18b20_read_temp_float_of_crc (crc8 : List ℕ → ℕ) (sp : List ℕ)
    (h : crc_matches crc8 sp) (p_temp : ℚ) :
    ds18b20_read_temp_float crc8 sp p_temp =
      (SUCCESS,
        ((ds18b20_adc_accum (sp.getD 0 0 % 256) (sp.getD 1 0 % 256) : ℤ) : ℚ)
          * 0.0625) := by
  unfold ds18b20_read_temp_float
  unfold crc_matches at h
  simp only [h, ne_eq, not_true_eq_false, if_false, getD_map_mod]
  split
  · rw [ds18b20_neg_branch_id _ (ds18b20_adc_accum_lb _ _)
      (ds18b20_adc_accum_ub _ _)]
  · rfl

/-- On a CRC mismatch, ds18b20_read_temp_float returns FAIL and the caller's
float unchanged. -/
lemma ds18b20_read_temp_float_of_bad_crc (crc8 : List ℕ → ℕ) (sp : List ℕ)
    (h : ¬ crc_matches crc8 sp) (p_temp : ℚ) :
    ds18b20_read_temp_float crc8 sp p_temp = (FAIL, p_temp) := by
  unfold ds18b20_read_temp_float
  unfold crc_matches at h
  simp only [ne_eq, if_pos h]

/-! ## Dust sampler (GP2Y1010AU) -/

/-- Oracle for one call of gp2y_read_dust_output_voltage_float: the result of
the IR-LED "on" gpio write, the ADC count mraa_aio_read delivers, and the
result of the "off" gpio write. -/
structure Gp2yEnv where
  writeOnOk : Bool
  adc : ℕ
  writeOffOk : Bool

/-- Embedding of gp2y_read_dust_output_voltage_float (app.c lines 501-551).
On either gpio-write failure it returns 0.0; otherwise it converts the raw
ADC count to the output voltage (raw / 1023.0) * 5.0.  The usleep holds are
pure timing and have no value-level effect. -/
def gp2y_read_dust_output_voltage_float (e : Gp2yEnv) : ℚ :=
  if e.writeOnOk = false then 0.0
  else
    let dust_adc_val := e.adc
    if e.writeOffOk = false then 0.0
    else ((dust_adc_val : ℚ) / 1023.0) * 5.0

/-- One iteration of the 16-sample loop of app.c lines 336-353 on the pair
(dust_data_coll_err, acc_dust_concentration). -/
def dust_batch_step (a : Bool × ℚ) (e : Gp2yEnv) : Bool × ℚ :=
  let dust_concentration := gp2y_read_dust_output_voltage_float e
  if 0.0 ≤ dust_concentration then (a.1, a.2 + dust_concentration)
  else (true, a.2)

/-- The 16-sample collection loop of app.c lines 330-353: starting from
err = 0, acc = 0.0, fold the per-sample step over samples 0..15. -/
def dust_batch (env : Fin 16 → Gp2yEnv) : Bool × ℚ :=
  (List.finRange 16).foldl (fun a i => dust_batch_step a (env i)) (false, 0.0)

/-- The three-branch density mapping of app.c lines 367-385, applied to the
mean output voltage acc_dust_concentration. -/
def dust_density_from_mean (m : ℚ) : ℚ :=
  if m ≤ 0.6 then 0.0
  else if m > 0.6 ∧ m ≤ 3.5 then (m - 0.6) / 5.8
  else 0.6

/-! ## Humidity sampler (HSM-20G) -/

/-- The quadratic response curve of app.c lines 566-567 as a function of the
converted voltage. -/
def hsm_curve (v : ℚ) : ℚ := 1.253 * v * v + 25.931 * v - 7.542

/-- Embedding of hsm_read_humidity_float (app.c lines 553-570): one raw ADC
sample (the oracle input), converted to voltage raw / 1023.0 * 5.0, then put
through the fixed quadratic.  The function is total: it has no failure
branch of its own. -/
def hsm_read_humidity_float (hum_adc_val : ℕ) : ℚ :=
  let humidity := ((hum_adc_val : ℚ) / 1023.0) * 5.0
  hsm_curve humidity

/-! ## The acquisition state machine of main (app.c lines 275-435)

The switch runs on the Nat-valued state_index; 0..6 are the enum members
NONE, START_CONV, WAIT_TILL_CONV_FINISHED, READ_TEMP,
READ_DUST_CONCENTRATION, READ_HUMIDITY, WAIT, and the out-of-range value
WAIT + 1 = 7 that the error paths assign lands in the default case. -/

abbrev ST_NONE : ℕ := 0
abbrev ST_START_CONV : ℕ := 1
abbrev ST_WAIT_TILL_CONV_FINISHED : ℕ := 2
abbrev ST_READ_TEMP : ℕ := 3
abbrev ST_READ_DUST_CONCENTRATION : ℕ := 4
abbrev ST_READ_HUMIDITY : ℕ := 5
abbrev ST_WAIT : ℕ := 6

/-- The oracle inputs one iteration of the for(;;) loop may consume: the
scratchpad bytes and driver CRC for a READ_TEMP step, the success of each
store_data_to_db call, the 16 per-sample oracles of a dust batch, and the
humidity ADC count. -/
structure EnvStep where
  crc8 : List ℕ → ℕ
  scratchpad : List ℕ
  tempStoreOk : Bool
  dustEnvs : Fin 16 → Gp2yEnv
  dustStoreOk : Bool
  humRaw : ℕ
  humStoreOk : Bool

/-- The mutable program state of main: the state_index, the probe counter
sen_count, the float temp the DS18B20 read writes through its pointer, the
trace of store_data_to_db calls (sensor id, value) in call order, the four
resource-release flags of the default case, and whether execution has
reached the default case's while(1). -/
structure AppM where
  state_index : ℕ
  sen_count : ℕ
  temp : ℚ
  trace : List (ℕ × ℚ)
  gpioClosed : Bool
  dustAioClosed : Bool
  hsmAioClosed : Bool
  uartStopped : Bool
  halted : Bool

/-- The machine state on entering the for(;;) loop: state_index = NONE,
sen_count reset to 0 (app.c line 273), temp = 0.0, no stores yet, all
resources held. -/
def initAppM : AppM :=
  ⟨ST_NONE, 0, 0.0, [], false, false, false, false, false⟩

/-- One iteration of the for(;;) switch of app.c lines 275-435.  A halted
machine (spinning in while(1)) never changes again. -/
def step (m : AppM) (e : EnvStep) : AppM :=
  if m.halted then m
  else if m.state_index = ST_NONE then
    { m with state_index := ST_START_CONV }
  else if m.state_index = ST_START_CONV then
    -- ds18b20_update issues the start-conversion command: bus side effect
    -- only, no machine-visible state change.
    { m with state_index := ST_WAIT_TILL_CONV_FINISHED }
  else if m.state_index = ST_WAIT_TILL_CONV_FINISHED then
    -- sleep(1): pure delay.
    { m with state_index := ST_READ_TEMP }
  else if m.state_index = ST_READ_TEMP then
    -- sen_count++ happens in the argument list, before the result test.
    let r := ds18b20_read_temp_float e.crc8 e.scratchpad m.temp
    let sc := m.sen_count + 1
    if r.1 = SUCCESS then
      let m1 := { m with temp := r.2, sen_count := sc,
                         trace := m.trace ++ [(sc, r.2)] }
      if e.tempStoreOk then
        if NUM_OF_SENSORS ≤ sc then
          { m1 with sen_count := 0,
                    state_index := ST_READ_DUST_CONCENTRATION }
        else { m1 with state_index := ST_START_CONV }
      else { m1 with state_index := ST_WAIT + 1 }
    else
      { m with temp := r.2, sen_count := sc, state_index := ST_WAIT + 1 }
  else if m.state_index = ST_READ_DUST_CONCENTRATION then
    let b := dust_batch e.dustEnvs
    if b.1 then { m with state_index := ST_WAIT + 1 }
    else
      -- acc / (float)dust_sensor_max_sample, with dust_sensor_max_sample = 16
      let mean := b.2 / (16 : ℚ)
      let density := dust_density_from_mean mean
      let m1 := { m with trace := m.trace ++ [(NUM_OF_SENSORS + 1, density)] }
      if e.dustStoreOk then { m1 with state_index := ST_READ_HUMIDITY }
      else { m1 with state_index := ST_WAIT + 1 }
  else if m.state_index = ST_READ_HUMIDITY then
    let humidity := hsm_read_humidity_float e.humRaw
    let m1 := { m with trace := m.trace ++ [(NUM_OF_SENSORS + 2, humidity)] }
    if e.humStoreOk then { m1 with state_index := ST_WAIT }
    else { m1 with state_index := ST_WAIT + 1 }
  else if m.state_index = ST_WAIT then
    -- sleep(60): pure delay.
    { m with state_index := ST_START_CONV }
  else
    -- default: close GPIO, both AIO handles, stop the 1-wire UART, then
    -- while(1).
    { m with gpioClosed := true, dustAioClosed := true,
             hsmAioClosed := true, uartStopped := true, halted := true }

/-- Run the loop through a list of per-iteration oracles. -/
def run (m : AppM) (es : List EnvStep) : AppM := es.foldl step m

/-! ## Startup enumeration (app.c lines 153-273) -/

/-- The mraa result values the startup code compares against: MRAA_SUCCESS,
MRAA_ERROR_UART_OW_NO_DEVICES, MRAA_ERROR_UART_OW_DATA_ERROR, or any other
error code. -/
inductive OwResult where
  | success
  | owNoDevices
  | owDataError
  | otherError
deriving DecidableEq

/-- Oracle for the startup sequence: whether mraa_uart_ow_init returns a
handle, the result of mraa_uart_ow_reset, the results of the first
(NEW_SEARCH) and second (CONTINUE_WITH_PREV_SEARCH, since
NUM_OF_SENSORS = 2) ROM searches, and the four pin-resource acquisitions. -/
structure StartupEnv where
  uartInitOk : Bool
  resetResult : OwResult
  searchResult1 : OwResult
  searchResult2 : OwResult
  gpioInitOk : Bool
  gpioDirOk : Bool
  dustAioInitOk : Bool
  hsmAioInitOk : Bool

/-- Outcome of startup: whether control reaches the for(;;) loop, the exit
code when it does not, and whether mraa_uart_ow_stop was called on the way
out. -/
structure StartupResult where
  entersLoop : Bool
  exitCode : ℕ
  uartStopped : Bool
deriving DecidableEq

/-- Embedding of main's startup sequence (app.c lines 153-273), one guard per
early return.  Every enumeration failure stops the UART and returns 1; only
a fully successful startup reaches the acquisition loop. -/
def startup (e : StartupEnv) : StartupResult :=
  if e.uartInitOk = false then ⟨false, 1, false⟩
  else if e.resetResult ≠ OwResult.success then ⟨false, 1, true⟩
  else if e.searchResult1 = OwResult.owNoDevices then ⟨false, 1, true⟩
  else if e.searchResult2 = OwResult.owNoDevices then ⟨false, 1, true⟩
  else if e.searchResult2 = OwResult.owDataError then ⟨false, 1, true⟩
  else if e.gpioInitOk = false then ⟨false, 1, true⟩
  else if e.gpioDirOk = false then ⟨false, 1, true⟩
  else if e.dustAioInitOk = false then ⟨false, 1, true⟩
  else if e.hsmAioInitOk = false then ⟨false, 1, true⟩
  else ⟨true, 0, false⟩

/-! ## Concrete oracles for witnesses and counterexamples -/

/-- An all-success loop oracle: the scratchpad is all zero and the driver CRC
is the constant 0 (so the CRC check passes), every store succeeds, every dust
sample sees working gpio writes and ADC count 0, humidity ADC count 0. -/
def e0 : EnvStep :=
  ⟨fun _ => 0, [0, 0, 0, 0, 0, 0, 0, 0, 0], true,
   fun _ => ⟨true, 0, true⟩, true, 0, true⟩

/-- Like e0, but the driver CRC is the constant 1 while scratchpad byte 8 is
0: the CRC check fails. -/
def eBadCrc : EnvStep :=
  ⟨fun _ => 1, [0, 0, 0, 0, 0, 0, 0, 0, 0], true,
   fun _ => ⟨true, 0, true⟩, true, 0, true⟩

/-- Like e0, but the IR-LED "on" gpio write fails on every one of the 16 dust
samples (ADC would have read 300). -/
def e_pinfail : EnvStep :=
  ⟨fun _ => 0, [0, 0, 0, 0, 0, 0, 0, 0, 0], true,
   fun _ => ⟨false, 300, true⟩, true, 0, true⟩

/-- A startup oracle whose bus reset reports a data error while everything
else would have succeeded. -/
def eStartFail : StartupEnv :=
  ⟨true, OwResult.owDataError, OwResult.success, OwResult.success,
   true, true, true, true⟩

/-! ## Helper lemmas -/

/-- The dust sampler never returns a negative value. -/
lemma gp2y_nonneg (e : Gp2yEnv) :
    (0.0 : ℚ) ≤ gp2y_read_dust_output_voltage_float e := by
  unfold gp2y_read_dust_output_voltage_float
  split
  · norm_num
  · split
    · norm_num
    · have h0 : (0 : ℚ) ≤ ((e.adc : ℚ) / 1023.0) * 5.0 := by positivity
      norm_num at h0 ⊢
      exact h0

/-- One dust-loop iteration never changes the error flag, because the sample
value is never negative. -/
lemma dust_batch_step_fst (a : Bool × ℚ) (e : Gp2yEnv) :
    (dust_batch_step a e).1 = a.1 := by
  unfold dust_batch_step
  rw [if_pos (gp2y_nonneg e)]

/-- dust_data_coll_err is still 0 after the 16-sample loop, whatever the
per-sample oracles did. -/
lemma dust_batch_fst_false (env : Fin 16 → Gp2yEnv) :
    (dust_batch env).1 = false := by
  unfold dust_batch
  have h : ∀ (l : List (Fin 16)) (a : Bool × ℚ),
      (l.foldl (fun a i => dust_batch_step a (env i)) a).1 = a.1 := by
    intro l
    induction l with
    | nil => intro a; rfl
    | cons x xs ih =>
      intro a
      rw [List.foldl_cons, ih, dust_batch_step_fst]
  exact h _ _

/-- When every sample of a batch returns 0.0 (as on a failed gpio write),
the accumulator after the 16-sample loop is still 0. -/
lemma dust_batch_snd_const_zero (env : Fin 16 → Gp2yEnv)
    (h : ∀ i, gp2y_read_dust_output_voltage_float (env i) = 0.0) :
    (dust_batch env).2 = 0.0 := by
  unfold dust_batch
  have hfold : ∀ (l : List (Fin 16)) (a : Bool × ℚ),
      (l.foldl (fun a i => dust_batch_step a (env i)) a).2 = a.2 := by
    intro l
    induction l with
    | nil => intro a; rfl
    | cons x xs ih =>
      intro a
      rw [List.foldl_cons, ih]
      unfold dust_batch_step
      rw [h x, if_pos (by norm_num : (0.0 : ℚ) ≤ 0.0)]
      norm_num
  rw [hfold]

/-- A machine spinning in the default case's while(1) never changes. -/
lemma step_halted (m : AppM) (e : EnvStep) (h : m.halted = true) :
    step m e = m := by
  unfold step
  rw [if_pos h]

/-- A halted machine stays halted through any further iterations. -/
lemma run_halted (m : AppM) (es : List EnvStep) (h : m.halted = true) :
    run m es = m := by
  induction es with
  | nil => rfl
  | cons x xs ih => rw [run, List.foldl_cons, step_halted m x h]; exact ih

/-! ## Claims -/

/-- C1 (amended): for every 9-byte scratchpad frame whose CRC check passes,
the decode reconstructs the 16-bit little-endian raw field from byte 0 (LSB)
and byte 1 (MSB); the negative branch (two's-complement inversion plus one,
then negation) is the identity on int16 values, so the result is the 16-bit
field interpreted as a signed two's-complement integer times 0.0625 degrees
Celsius.  Raw 0x0190 decodes to 25.0 degC, raw 0xFC90 decodes to -55.0 degC,
and the lsb=0xFF msb=0xFE frame decodes to -16.0625 degC (raw 0xFEFF = -257),
not to -0.0625 degC as the spec example says. -/
theorem C1_amended (crc8f : List ℕ → ℕ) (sp : List ℕ) (q0 : ℚ) (z : ℤ)
    (hc : crc_matches crc8f sp) (hz1 : -32768 ≤ z) (hz2 : z ≤ 32767) :
    ds18b20_read_temp_float crc8f sp q0 =
      (SUCCESS,
        ((ds18b20_adc_accum (sp.getD 0 0 % 256) (sp.getD 1 0 % 256) : ℤ) : ℚ)
          * 0.0625) ∧
    ds18b20_neg_branch z = z ∧
    ds18b20_read_temp_float (fun _ => 0) [0x90, 0x01, 0, 0, 0, 0, 0, 0, 0] 0 =
      (SUCCESS, 25.0) ∧
    ds18b20_read_temp_float (fun _ => 0) [0x90, 0xFC, 0, 0, 0, 0, 0, 0, 0] 0 =
      (SUCCESS, -55.0) ∧
    ds18b20_read_temp_float (fun _ => 0) [0xFF, 0xFE, 0, 0, 0, 0, 0, 0, 0] 0 =
      (SUCCESS, -16.0625) := by
  refine ⟨ds18b20_read_temp_float_of_crc crc8f sp hc q0,
    ds18b20_neg_branch_id z hz1 hz2, ?_, ?_, ?_⟩
  all_goals
    rw [ds18b20_read_temp_float_of_crc _ _ (by decide)]
    norm_num [ds18b20_adc_accum, toInt16, List.getD_cons_zero,
      List.getD_cons_succ, Prod.mk.injEq]

/-- C1 witness: the general decode equation applied to the concrete frame
lsb=0x90 msb=0x01 with a driver CRC that matches (constant 0). -/
theorem C1_witness :
    crc_matches (fun _ => 0) [0x90, 0x01, 0, 0, 0, 0, 0, 0, 0] ∧
    (-32768 ≤ (400 : ℤ)) ∧ ((400 : ℤ) ≤ 32767) ∧
    ds18b20_read_temp_float (fun _ => 0) [0x90, 0x01, 0, 0, 0, 0, 0, 0, 0] 0 =
      (SUCCESS, ((ds18b20_adc_accum 0x90 0x01 : ℤ) : ℚ) * 0.0625) :=
  ⟨by decide, by decide, by decide,
   (C1_amended (fun _ => 0) [0x90, 0x01, 0, 0, 0, 0, 0, 0, 0] 0 400
      (by decide) (by decide) (by decide)).1⟩

/-- C1 counterexample: the frame with lsb=0xFF, msb=0xFE and a matching CRC
decodes to -16.0625 degC, not to the -0.0625 degC the claim asserts. -/
theorem C1_counterexample :
    ds18b20_read_temp_float (fun _ => 0) [0xFF, 0xFE, 0, 0, 0, 0, 0, 0, 0] 0 =
      (SUCCESS, -16.0625) ∧
    ((-16.0625 : ℚ) ≠ -0.0625) := by
  constructor
  · rw [ds18b20_read_temp_float_of_crc _ _ (by decide)]
    norm_num [ds18b20_adc_accum, toInt16, List.getD_cons_zero,
      List.getD_cons_succ, Prod.mk.injEq]
  · norm_num

/-- C4: on a 9-byte frame whose CRC-8 of bytes 0..7 does not equal byte 8,
ds18b20_read_temp_float returns FAIL and leaves the caller's temperature
location unchanged: no sign/scale decoding of the corrupted frame reaches
the caller. -/
theorem C4_crc_mismatch_fails (crc8f : List ℕ → ℕ) (sp : List ℕ) (q0 : ℚ)
    (h : ¬ crc_matches crc8f sp) :
    ds18b20_read_temp_float crc8f sp q0 = (FAIL, q0) :=
  ds18b20_read_temp_float_of_bad_crc crc8f sp h q0

/-- C4 witness: a concrete all-zero frame against a driver CRC of 1 fails
and leaves the caller's value 3.25 untouched. -/
theorem C4_witness :
    ¬ crc_matches (fun _ => 1) [0, 0, 0, 0, 0, 0, 0, 0, 0] ∧
    ds18b20_read_temp_float (fun _ => 1) [0, 0, 0, 0, 0, 0, 0, 0, 0] 3.25 =
      (FAIL, 3.25) :=
  ⟨by decide,
   C4_crc_mismatch_fails (fun _ => 1) [0, 0, 0, 0, 0, 0, 0, 0, 0] 3.25
     (by decide)⟩

/-- C2: the persisted dust density is the three-branch map with breakpoints
0.6 and 3.5 and divisor 5.8; mean 3.5 maps to (3.5 - 0.6) / 5.8 and mean
10.0 maps to the clamp 0.6; and the READ_DUST_CONCENTRATION state persists
exactly dust_density_from_mean of the batch mean under sensor id 3. -/
theorem C2_dust_curve (m : ℚ) (s0 : ℕ) (q0 : ℚ) (t0 : List (ℕ × ℚ))
    (e : EnvStep) :
    (m ≤ 0.6 → dust_density_from_mean m = 0.0) ∧
    (0.6 < m → m ≤ 3.5 → dust_density_from_mean m = (m - 0.6) / 5.8) ∧
    (3.5 < m → dust_density_from_mean m = 0.6) ∧
    dust_density_from_mean 3.5 = (3.5 - 0.6) / 5.8 ∧
    dust_density_from_mean 10.0 = 0.6 ∧
    (step ⟨ST_READ_DUST_CONCENTRATION, s0, q0, t0,
        false, false, false, false, false⟩ e).trace =
      t0 ++ [(3, dust_density_from_mean ((dust_batch e.dustEnvs).2 / 16))] := by
  refine ⟨?_, ?_, ?_, ?_, ?_, ?_⟩
  · intro h
    unfold dust_density_from_mean
    rw [if_pos h]
  · intro h1 h2
    unfold dust_density_from_mean
    rw [if_neg (by linarith), if_pos ⟨h1, h2⟩]
  · intro h
    unfold dust_density_from_mean
    rw [if_neg (by linarith), if_neg (by push_neg; intro; linarith)]
  · norm_num [dust_density_from_mean]
  · norm_num [dust_density_from_mean]
  · simp [step, dust_batch_fst_false]
    split <;> simp

/-- C2 witness: the three branches of the curve at the concrete means 0.5,
2.0 and 10.0, and the persisted record of a concrete dust step. -/
theorem C2_witness :
    ((0.5 : ℚ) ≤ 0.6) ∧ dust_density_from_mean 0.5 = 0.0 ∧
    ((0.6 : ℚ) < 2) ∧ ((2 : ℚ) ≤ 3.5) ∧
    dust_density_from_mean 2 = (2 - 0.6) / 5.8 ∧
    ((3.5 : ℚ) < 10) ∧ dust_density_from_mean 10 = 0.6 :=
  ⟨by norm_num, (C2_dust_curve 0.5 0 0 [] e0).1 (by norm_num),
   by norm_num, by norm_num,
   (C2_dust_curve 2 0 0 [] e0).2.1 (by norm_num) (by norm_num),
   by norm_num, (C2_dust_curve 10 0 0 [] e0).2.2.1 (by norm_num)⟩

/-- C6: hsm_read_humidity_float is a total pure function of one raw sample:
it converts raw to voltage raw / 1023.0 * 5.0 and applies the fixed quadratic
1.253 v^2 + 25.931 v - 7.542; at voltage 2.0 the quadratic yields exactly
49.332. -/
theorem C6_humidity (raw : ℕ) :
    hsm_read_humidity_float raw =
      1.253 * (((raw : ℚ) / 1023.0) * 5.0) * (((raw : ℚ) / 1023.0) * 5.0)
        + 25.931 * (((raw : ℚ) / 1023.0) * 5.0) - 7.542 ∧
    hsm_curve 2.0 = 49.332 := by
  constructor
  · rfl
  · norm_num [hsm_curve]

/-- C9: the dust sampler's return value is never negative: each gpio-write
failure path returns 0.0 (inside the valid range), the success path returns
(raw / 1023.0) * 5.0 which is nonnegative, and therefore the controller's
per-sample error branch never fires: the batch error flag is false for every
possible 16-sample batch. -/
theorem C9_gp2y_nonneg_total (e : Gp2yEnv) (a : ℕ) (w1 w2 : Bool)
    (env : Fin 16 → Gp2yEnv) :
    (0 : ℚ) ≤ gp2y_read_dust_output_voltage_float e ∧
    gp2y_read_dust_output_voltage_float ⟨false, a, w1⟩ = 0.0 ∧
    gp2y_read_dust_output_voltage_float ⟨w2, a, false⟩ = 0.0 ∧
    gp2y_read_dust_output_voltage_float ⟨true, a, true⟩ =
      ((a : ℚ) / 1023.0) * 5.0 ∧
    (dust_batch env).1 = false := by
  refine ⟨?_, ?_, ?_, ?_, dust_batch_fst_false env⟩
  · have h := gp2y_nonneg e
    norm_num at h ⊢
    exact h
  · rfl
  · unfold gp2y_read_dust_output_voltage_float
    cases w2 <;> simp
  · rfl

/-- The temperature value a successful READ_TEMP step writes and persists:
the int16 interpretation of the scratchpad's first two bytes times 0.0625. -/
def decoded_temp (e : EnvStep) : ℚ :=
  ((ds18b20_adc_accum (e.scratchpad.getD 0 0 % 256)
      (e.scratchpad.getD 1 0 % 256) : ℤ) : ℚ) * 0.0625

/-- C3 evaluated on the failing input: when the IR-LED gpio write fails on
every one of the 16 dust samples, the sampler returns 0.0 each time, the
batch error flag is never set, and the READ_DUST_CONCENTRATION state still
averages the batch and issues the persistence call (sensor id 3, density
0.0), then moves on to READ_HUMIDITY — the batch is not marked failed. -/
theorem C3_code_eval :
    gp2y_read_dust_output_voltage_float ⟨false, 300, true⟩ = 0.0 ∧
    (dust_batch fun _ => ⟨false, 300, true⟩).1 = false ∧
    (step ⟨ST_READ_DUST_CONCENTRATION, 0, 0, [],
        false, false, false, false, false⟩ e_pinfail).trace = [(3, 0.0)] ∧
    (step ⟨ST_READ_DUST_CONCENTRATION, 0, 0, [],
        false, false, false, false, false⟩ e_pinfail).state_index =
      ST_READ_HUMIDITY := by
  have hz : (dust_batch (fun _ => (⟨false, 300, true⟩ : Gp2yEnv))).2 = 0.0 :=
    dust_batch_snd_const_zero _ (fun i => rfl)
  refine ⟨rfl, dust_batch_fst_false _, ?_, ?_⟩
  · simp [step, e_pinfail, dust_batch_fst_false, hz,
      ST_NONE, ST_START_CONV, ST_WAIT_TILL_CONV_FINISHED, ST_READ_TEMP,
      ST_READ_DUST_CONCENTRATION, ST_READ_HUMIDITY, ST_WAIT,
      dust_density_from_mean]
    norm_num
  · simp [step, e_pinfail, dust_batch_fst_false, hz,
      ST_NONE, ST_START_CONV, ST_WAIT_TILL_CONV_FINISHED, ST_READ_TEMP,
      ST_READ_DUST_CONCENTRATION, ST_READ_HUMIDITY, ST_WAIT]

/-- C5: one fully successful acquisition cycle, started at START_CONV with
probe counter 0 and any prior trace, issues exactly the four persistence
calls (1, temp probe 0), (2, temp probe 1), (3, dust), (4, humidity) in that
order, ends in WAIT with the probe counter back at 0, and the WAIT state
returns to START_CONV with counter and trace unchanged — so every later
cycle repeats the same id order. -/
theorem C5_cycle_order (q0 : ℚ) (t0 : List (ℕ × ℚ))
    (e1 e2 e3 e4 e5 e6 e7 e8 : EnvStep)
    (h3c : crc_matches e3.crc8 e3.scratchpad) (h3s : e3.tempStoreOk = true)
    (h6c : crc_matches e6.crc8 e6.scratchpad) (h6s : e6.tempStoreOk = true)
    (h7s : e7.dustStoreOk = true) (h8s : e8.humStoreOk = true) :
    run ⟨ST_START_CONV, 0, q0, t0, false, false, false, false, false⟩
        [e1, e2, e3, e4, e5, e6, e7, e8] =
      ⟨ST_WAIT, 0, decoded_temp e6,
        t0 ++ [(1, decoded_temp e3), (2, decoded_temp e6),
               (3, dust_density_from_mean ((dust_batch e7.dustEnvs).2 / 16)),
               (4, hsm_read_humidity_float e8.humRaw)],
        false, false, false, false, false⟩ ∧
    (t0 ++ [(1, decoded_temp e3), (2, decoded_temp e6),
            (3, dust_density_from_mean ((dust_batch e7.dustEnvs).2 / 16)),
            (4, hsm_read_humidity_float e8.humRaw)]).map Prod.fst =
      t0.map Prod.fst ++ [1, 2, 3, 4] ∧
    ∀ e9 : EnvStep,
      step ⟨ST_WAIT, 0, decoded_temp e6,
          t0 ++ [(1, decoded_temp e3), (2, decoded_temp e6),
                 (3, dust_density_from_mean ((dust_batch e7.dustEnvs).2 / 16)),
                 (4, hsm_read_humidity_float e8.humRaw)],
          false, false, false, false, false⟩ e9 =
        ⟨ST_START_CONV, 0, decoded_temp e6,
          t0 ++ [(1, decoded_temp e3), (2, decoded_temp e6),
                 (3, dust_density_from_mean ((dust_batch e7.dustEnvs).2 / 16)),
                 (4, hsm_read_humidity_float e8.humRaw)],
          false, false, false, false, false⟩ := by
  refine ⟨?_, by simp, ?_⟩
  · simp [run, step, ds18b20_read_temp_float_of_crc _ _ h3c,
      ds18b20_read_temp_float_of_crc _ _ h6c, h3s, h6s, h7s, h8s,
      dust_batch_fst_false, decoded_temp]
  · intro e9
    simp [step]

/-- C5 witness: the cycle run on the concrete all-success oracle e0. -/
theorem C5_witness :
    crc_matches e0.crc8 e0.scratchpad ∧ e0.tempStoreOk = true ∧
    e0.dustStoreOk = true ∧ e0.humStoreOk = true ∧
    run ⟨ST_START_CONV, 0, 0, [], false, false, false, false, false⟩
        [e0, e0, e0, e0, e0, e0, e0, e0] =
      ⟨ST_WAIT, 0, decoded_temp e0,
        [(1, decoded_temp e0), (2, decoded_temp e0),
         (3, dust_density_from_mean ((dust_batch e0.dustEnvs).2 / 16)),
         (4, hsm_read_humidity_float e0.humRaw)],
        false, false, false, false, false⟩ :=
  ⟨by decide, rfl, rfl, rfl,
   (C5_cycle_order 0 [] e0 e0 e0 e0 e0 e0 e0 e0
      (by decide) rfl (by decide) rfl rfl rfl).1⟩

/-- C7 (amended): a decode-level error is not local to the reading: a CRC
mismatch in READ_TEMP sends the state machine to the out-of-range state
WAIT + 1, whose next iteration lands in the default case, releases the
handles and halts forever — the acquisition cycle is aborted, no value is
fabricated (the trace does not grow), and no subsequent reading or cycle
ever happens. -/
theorem C7_amended (q0 : ℚ) (t0 : List (ℕ × ℚ)) (s0 : ℕ) (e1 : EnvStep)
    (hbad : ¬ crc_matches e1.crc8 e1.scratchpad) :
    step ⟨ST_READ_TEMP, s0, q0, t0, false, false, false, false, false⟩ e1 =
      ⟨ST_WAIT + 1, s0 + 1, q0, t0, false, false, false, false, false⟩ ∧
    (∀ e2 : EnvStep,
      step ⟨ST_WAIT + 1, s0 + 1, q0, t0, false, false, false, false, false⟩
          e2 =
        ⟨ST_WAIT + 1, s0 + 1, q0, t0, true, true, true, true, true⟩) ∧
    ∀ es : List EnvStep,
      run ⟨ST_WAIT + 1, s0 + 1, q0, t0, true, true, true, true, true⟩ es =
        ⟨ST_WAIT + 1, s0 + 1, q0, t0, true, true, true, true, true⟩ := by
  refine ⟨?_, ?_, ?_⟩
  · simp [step, ds18b20_read_temp_float_of_bad_crc _ _ hbad,
      ST_NONE, ST_START_CONV, ST_WAIT_TILL_CONV_FINISHED, ST_READ_TEMP,
      ST_READ_DUST_CONCENTRATION, ST_READ_HUMIDITY, ST_WAIT]
  · intro e2
    simp [step,
      ST_NONE, ST_START_CONV, ST_WAIT_TILL_CONV_FINISHED, ST_READ_TEMP,
      ST_READ_DUST_CONCENTRATION, ST_READ_HUMIDITY, ST_WAIT]
  · intro es
    exact run_halted _ _ rfl

/-- C7 witness: the fault transition on the concrete bad-CRC oracle. -/
theorem C7_witness :
    ¬ crc_matches eBadCrc.crc8 eBadCrc.scratchpad ∧
    step ⟨ST_READ_TEMP, 0, 0, [], false, false, false, false, false⟩
        eBadCrc =
      ⟨ST_WAIT + 1, 0 + 1, 0, [], false, false, false, false, false⟩ :=
  ⟨by decide, (C7_amended 0 [] 0 eBadCrc (by decide)).1⟩

/-- C7 counterexample: starting the loop with a CRC mismatch on the first
probe and everything afterwards healthy, the machine halts with an empty
trace — it does not skip the reading and continue to the dust and humidity
readings as the claim states. -/
theorem C7_counterexample :
    (run initAppM
        [e0, e0, e0, eBadCrc, e0, e0, e0, e0, e0, e0]).halted = true ∧
    (run initAppM
        [e0, e0, e0, eBadCrc, e0, e0, e0, e0, e0, e0]).trace = [] := by
  decide

/-- C8 (amended): the default case is terminal: from the out-of-range state
WAIT + 1 the machine halts forever and never returns to any acquisition
state — but before the infinite spin it does release the acquired hardware
resources, closing the GPIO handle, both AIO handles and stopping the
one-wire UART. -/
theorem C8_amended (s0 : ℕ) (q0 : ℚ) (t0 : List (ℕ × ℚ))
    (g d h u : Bool) (e : EnvStep) (es : List EnvStep) :
    step ⟨ST_WAIT + 1, s0, q0, t0, g, d, h, u, false⟩ e =
      ⟨ST_WAIT + 1, s0, q0, t0, true, true, true, true, true⟩ ∧
    run ⟨ST_WAIT + 1, s0, q0, t0, true, true, true, true, true⟩ es =
      ⟨ST_WAIT + 1, s0, q0, t0, true, true, true, true, true⟩ :=
  ⟨by
    simp [step,
      ST_NONE, ST_START_CONV, ST_WAIT_TILL_CONV_FINISHED, ST_READ_TEMP,
      ST_READ_DUST_CONCENTRATION, ST_READ_HUMIDITY, ST_WAIT],
   run_halted _ _ rfl⟩

/-- C8 counterexample: on entering the default case the code closes the GPIO
handle, both AIO handles and stops the one-wire UART before the while(1)
spin, so the claim that the handles are never released is false. -/
theorem C8_counterexample :
    (step ⟨ST_WAIT + 1, 0, 0, [], false, false, false, false, false⟩
        e0).gpioClosed = true ∧
    (step ⟨ST_WAIT + 1, 0, 0, [], false, false, false, false, false⟩
        e0).dustAioClosed = true ∧
    (step ⟨ST_WAIT + 1, 0, 0, [], false, false, false, false, false⟩
        e0).hsmAioClosed = true ∧
    (step ⟨ST_WAIT + 1, 0, 0, [], false, false, false, false, false⟩
        e0).uartStopped = true ∧
    (step ⟨ST_WAIT + 1, 0, 0, [], false, false, false, false, false⟩
        e0).halted = true := by
  decide

/-- C10: with the UART acquired, each startup enumeration failure — reset
not succeeding (no devices or bus data error), first ROM search finding no
device, the continued search finding fewer probes than NUM_OF_SENSORS, or
the search ending in a bus data error — makes main stop the one-wire UART,
return exit code 1, and never reach the acquisition loop. -/
theorem C10_startup_fatal (e : StartupEnv) (hu : e.uartInitOk = true)
    (hfail : e.resetResult ≠ OwResult.success ∨
      e.searchResult1 = OwResult.owNoDevices ∨
      e.searchResult2 = OwResult.owNoDevices ∨
      e.searchResult2 = OwResult.owDataError) :
    startup e = ⟨false, 1, true⟩ := by
  obtain ⟨u, rr, s1, s2, g1, g2, a1, a2⟩ := e
  simp only at hu hfail
  subst hu
  rcases hfail with h | h | h | h <;>
    cases rr <;> cases s1 <;> cases s2 <;> simp_all [startup]

/-- C10 witness: a bus data error during reset aborts startup. -/
theorem C10_witness :
    eStartFail.uartInitOk = true ∧
    (eStartFail.resetResult ≠ OwResult.success ∨
      eStartFail.searchResult1 = OwResult.owNoDevices ∨
      eStartFail.searchResult2 = OwResult.owNoDevices ∨
      eStartFail.searchResult2 = OwResult.owDataError) ∧
    startup eStartFail = ⟨false, 1, true⟩ :=
  ⟨rfl, Or.inl (by decide),
   C10_startup_fatal eStartFail rfl (Or.inl (by decide))⟩

end CtrlRoomMonitor
